import Mathlib

/-!
Verification development for the Strays Bengaluru community web application
(`app.py`).  The data model (User, Donation, Report, Event), the record
intake handlers (`register`, `add_donation`, `report_animal`,
`create_event`), the analytics aggregation (`stats`), the upload helpers
(`allowed_file`, `secure_filename`) and the two map view builders
(`map_view`, `donation_map`) are shallowly embedded as pure Lean
functions over explicit application state.  Flask request data is
modelled as an association list of form fields; the database session is
modelled as explicit state passing; a raised Python exception is
modelled as an `Except.error` outcome; SQLAlchemy `Float` coordinate
columns are modelled over `Rat`.  Presentation-only outputs of the map
views (`distinct_animals`, `heat_data`) and the notification side
effects (log-only stubs in the source) are not modelled.
-/

namespace Strays

/-- A calendar timestamp as produced by `datetime.strptime` on the
`%Y-%m-%dT%H:%M` format used by the intake forms. -/
structure DateTime where
  year : Nat
  month : Nat
  day : Nat
  hour : Nat
  minute : Nat
deriving DecidableEq, Repr

/-- Gregorian leap year rule, as used by Python's `datetime` validation. -/
def isLeapYear (y : Nat) : Bool :=
  (y % 4 = 0 && y % 100 ≠ 0) || y % 400 = 0

/-- Number of days in a month, as validated by the `datetime` constructor. -/
def daysInMonth (y m : Nat) : Nat :=
  if m = 2 then (if isLeapYear y then 29 else 28)
  else if m = 4 || m = 6 || m = 9 || m = 11 then 30
  else 31

/-- Numeric value of a list of decimal digit characters. -/
def digitsToNat (l : List Char) : Nat :=
  l.foldl (fun n c => n * 10 + (c.toNat - 48)) 0

/-- `datetime.strptime(s, '%Y-%m-%dT%H:%M')` on canonically formatted
input (the HTML `datetime-local` wire format `YYYY-MM-DDTHH:MM`):
`some` timestamp on success, `none` when the string is malformed
(Python raises `ValueError` there). -/
def parseTimestamp (s : String) : Option DateTime :=
  match s.data with
  | [y1, y2, y3, y4, c1, m1, m2, c2, d1, d2, t, h1, h2, c3, n1, n2] =>
    if c1 = '-' && c2 = '-' && t = 'T' && c3 = ':' &&
        [y1, y2, y3, y4, m1, m2, d1, d2, h1, h2, n1, n2].all Char.isDigit then
      let yr := digitsToNat [y1, y2, y3, y4]
      let mo := digitsToNat [m1, m2]
      let da := digitsToNat [d1, d2]
      let ho := digitsToNat [h1, h2]
      let mi := digitsToNat [n1, n2]
      if 1 ≤ mo ∧ mo ≤ 12 ∧ 1 ≤ da ∧ da ≤ daysInMonth yr mo ∧ ho ≤ 23 ∧ mi ≤ 59 then
        some ⟨yr, mo, da, ho, mi⟩
      else none
    else none
  | _ => none

/-- Zero-padded two-digit rendering, as in `strftime("%m")`. -/
def pad2 (n : Nat) : String :=
  if n < 10 then "0" ++ toString n else toString n

/-- Zero-padded four-digit rendering, as in `strftime("%Y")`. -/
def pad4 (n : Nat) : String :=
  if n < 10 then "000" ++ toString n
  else if n < 100 then "00" ++ toString n
  else if n < 1000 then "0" ++ toString n
  else toString n

/-- `strftime("%Y-%m")`: the year-month bucket label. -/
def fmtYM (t : DateTime) : String :=
  pad4 t.year ++ "-" ++ pad2 t.month

/-- Row of the `User` table (`class User`). -/
structure User where
  id : Nat
  username : String
  password : String
  email : String
  role : String
  points : Nat
deriving DecidableEq, Repr

/-- Row of the `Donation` table (`class Donation`).  `quantity` keeps the
raw form string the handler stores; coordinates are nullable floats,
modelled over `Rat`. -/
structure Donation where
  id : Nat
  description : String
  food_type : String
  quantity : String
  pickup_location : String
  pickup_time : Option DateTime
  donor_id : Nat
  pickup_latitude : Option Rat
  pickup_longitude : Option Rat
deriving DecidableEq, Repr

/-- Row of the `Report` table (`class Report`).  `report_time` is
server-assigned (`server_default=func.now()`) but the column is
nullable, so it is modelled as an `Option`. -/
structure Report where
  id : Nat
  animal_type : String
  description : String
  location : String
  contact : String
  report_time : Option DateTime
  reporter_id : Nat
  image_filename : Option String
  latitude : Option Rat
  longitude : Option Rat
deriving DecidableEq, Repr

/-- Row of the `Event` table (`class Event`), participants omitted
(no claim concerns membership). -/
structure Event where
  id : Nat
  title : String
  description : String
  event_time : DateTime
  location : String
deriving DecidableEq, Repr

/-- The persistent store: one list per table, in insertion order. -/
structure AppState where
  users : List User
  donations : List Donation
  reports : List Report
  events : List Event
deriving DecidableEq, Repr

/-- `request.form`, an association list of field names to values. -/
abbrev Form := List (String × String)

/-- `request.form[k]`: `some` value or `none` (Python raises `KeyError`). -/
def formGet (form : Form) (k : String) : Option String :=
  (form.find? (fun p => p.1 = k)).map (fun p => p.2)

/-- The Python exceptions the embedded handlers can raise. -/
inductive HandlerError where
  /-- `KeyError` from `request.form[field]` on a missing field. -/
  | keyError (field : String)
  /-- `ValueError` from `datetime.strptime` on a malformed timestamp. -/
  | valueError
  /-- `IntegrityError` from a violated database uniqueness constraint. -/
  | integrityError
deriving DecidableEq, Repr

/-- A handler outcome: the (possibly updated) store, the flashed
messages, and either a redirect target endpoint or a raised exception. -/
abbrev HandlerResult := AppState × List String × Except HandlerError String

/-- `ALLOWED_EXTENSIONS = {'png', 'jpg', 'jpeg', 'gif'}`. -/
def ALLOWED_EXTENSIONS : List String := ["png", "jpg", "jpeg", "gif"]

/-- `str.lower()` on the ASCII range, character by character. -/
def strLower (s : String) : String :=
  String.mk (s.data.map Char.toLower)

/-- `filename.rsplit('.', 1)[1]`: the substring after the last dot. -/
def extAfterLastDot (filename : String) : String :=
  String.mk ((filename.data.reverse.takeWhile (fun c => c ≠ '.')).reverse)

/-- `allowed_file`: the filename contains a dot and its lower-cased
extension is in the allow-list. -/
def allowed_file (filename : String) : Bool :=
  filename.data.contains '.' &&
    ALLOWED_EXTENSIONS.contains (strLower (extAfterLastDot filename))

/-- Accumulator pass of `str.split()`: split on whitespace, dropping
empty fragments. -/
def splitWsAux : List Char → List Char → List (List Char)
  | [], acc => if acc.isEmpty then [] else [acc.reverse]
  | c :: rest, acc =>
    if c.isWhitespace then
      if acc.isEmpty then splitWsAux rest [] else acc.reverse :: splitWsAux rest []
    else splitWsAux rest (c :: acc)

/-- Python `str.split()` with no separator argument. -/
def splitWs (l : List Char) : List (List Char) :=
  splitWsAux l []

/-- Python `str.strip(chars)`: drop the given characters from both ends. -/
def stripChars (p : Char → Bool) (l : List Char) : List Char :=
  ((l.dropWhile p).reverse.dropWhile p).reverse

/-- The character class `[A-Za-z0-9_.-]` kept by `secure_filename`. -/
def secureKeep (c : Char) : Bool :=
  c.isAlpha || c.isDigit || c = '_' || c = '.' || c = '-'

/-- `werkzeug.utils.secure_filename` on a POSIX host: replace the path
separator with a space, split on whitespace and re-join with
underscores, drop every character outside `[A-Za-z0-9_.-]`, then strip
leading and trailing dots and underscores. -/
def secure_filename (filename : String) : String :=
  let replaced := filename.data.map (fun c => if c = '/' then ' ' else c)
  let joined := List.intercalate ['_'] (splitWs replaced)
  String.mk (stripChars (fun c => c = '.' || c = '_') (joined.filter secureKeep))

/-- Lexicographic comparison of character lists by code point, the
ordering Python's `sorted` applies to strings. -/
def listLe : List Char → List Char → Bool
  | [], _ => true
  | _ :: _, [] => false
  | a :: as, b :: bs =>
    if a.toNat < b.toNat then true
    else if b.toNat < a.toNat then false
    else listLe as bs

/-- The string ordering used by `sorted` on the bucket labels. -/
def strLe (a b : String) : Prop :=
  listLe a.data b.data = true

instance : DecidableRel strLe := fun a b =>
  inferInstanceAs (Decidable (listLe a.data b.data = true))

/-- `sorted(keys)`: ascending lexicographic sort. -/
def sortStrings (l : List String) : List String :=
  List.insertionSort strLe l

/-- The `register` POST handler, parameterised by the password hashing
function (`generate_password_hash`, out of the modelled core).  Reads
the four form fields, checks for an already-registered email, and on
the write path the database enforces the unique constraints on both
`username` and `email` (`IntegrityError` when violated). -/
def register (hashFn : String → String) (st : AppState) (nextId : Nat)
    (form : Form) : HandlerResult :=
  match formGet form "username" with
  | none => (st, [], .error (.keyError "username"))
  | some username =>
  match formGet form "password" with
  | none => (st, [], .error (.keyError "password"))
  | some password =>
  match formGet form "email" with
  | none => (st, [], .error (.keyError "email"))
  | some email =>
  match formGet form "role" with
  | none => (st, [], .error (.keyError "role"))
  | some role =>
  if st.users.any (fun u => u.email = email) then
    (st, ["Email already registered. Please use a different email."], .ok "register")
  else if st.users.any (fun u => u.username = username || u.email = email) then
    (st, [], .error .integrityError)
  else
    ({ st with users := st.users ++ [⟨nextId, username, hashFn password, email, role, 0⟩] },
     ["Registration successful! Please login."], .ok "login")

/-- The `add_donation` POST handler for the authenticated user `uid`:
read the five form fields, parse the pickup time, append one Donation
row and add 10 points to the submitter. -/
def add_donation (st : AppState) (uid nextId : Nat) (form : Form) : HandlerResult :=
  match formGet form "description" with
  | none => (st, [], .error (.keyError "description"))
  | some description =>
  match formGet form "food_type" with
  | none => (st, [], .error (.keyError "food_type"))
  | some food_type =>
  match formGet form "quantity" with
  | none => (st, [], .error (.keyError "quantity"))
  | some quantity =>
  match formGet form "pickup_location" with
  | none => (st, [], .error (.keyError "pickup_location"))
  | some pickup_location =>
  match formGet form "pickup_time" with
  | none => (st, [], .error (.keyError "pickup_time"))
  | some pickup_time_str =>
  match parseTimestamp pickup_time_str with
  | none => (st, [], .error .valueError)
  | some pickup_time =>
    ({ st with
        donations := st.donations ++
          [⟨nextId, description, food_type, quantity, pickup_location,
            some pickup_time, uid, none, none⟩],
        users := st.users.map (fun u =>
          if u.id = uid then { u with points := u.points + 10 } else u) },
     ["Donation added successfully!"], .ok "dashboard")

/-- The `report_animal` POST handler for the authenticated user `uid`:
read the four form fields, attach the optional image when its filename
is non-empty and allowed (sanitised through `secure_filename`), append
one Report row with the server-assigned `now` timestamp and add 5
points to the submitter. -/
def report_animal (st : AppState) (uid nextId : Nat) (form : Form)
    (image : Option String) (now : DateTime) : HandlerResult :=
  match formGet form "animal_type" with
  | none => (st, [], .error (.keyError "animal_type"))
  | some animal_type =>
  match formGet form "description" with
  | none => (st, [], .error (.keyError "description"))
  | some description =>
  match formGet form "location" with
  | none => (st, [], .error (.keyError "location"))
  | some location =>
  match formGet form "contact" with
  | none => (st, [], .error (.keyError "contact"))
  | some contact =>
  let image_filename : Option String :=
    match image with
    | some fn => if fn ≠ "" && allowed_file fn then some (secure_filename fn) else none
    | none => none
  ({ st with
      reports := st.reports ++
        [⟨nextId, animal_type, description, location, contact, some now,
          uid, image_filename, none, none⟩],
      users := st.users.map (fun u =>
        if u.id = uid then { u with points := u.points + 5 } else u) },
   ["Report submitted successfully!"], .ok "dashboard")

/-- The `create_event` POST handler: the string-equality admin gate,
then form reads in source order (`title`, `description`,
`event_time` with `strptime`, then `location`). -/
def create_event (st : AppState) (u : User) (nextId : Nat) (form : Form) : HandlerResult :=
  if u.role ≠ "admin" then
    (st, ["You are not authorized to create events."], .ok "dashboard")
  else
    match formGet form "title" with
    | none => (st, [], .error (.keyError "title"))
    | some title =>
    match formGet form "description" with
    | none => (st, [], .error (.keyError "description"))
    | some description =>
    match formGet form "event_time" with
    | none => (st, [], .error (.keyError "event_time"))
    | some event_time_str =>
    match parseTimestamp event_time_str with
    | none => (st, [], .error .valueError)
    | some event_time =>
    match formGet form "location" with
    | none => (st, [], .error (.keyError "location"))
    | some location =>
      ({ st with events := st.events ++ [⟨nextId, title, description, event_time, location⟩] },
       ["Event created successfully!"], .ok "events")

/-- One step of the Python dict update `d[key] = d.get(key, 0) + 1` on
an insertion-ordered association list with distinct keys. -/
def bump : List (String × Nat) → String → List (String × Nat)
  | [], k => [(k, 1)]
  | p :: rest, k => if p.1 = k then (p.1, p.2 + 1) :: rest else p :: bump rest k

/-- `d.get(k, 0)`-style lookup (also `d[k]` for present keys). -/
def lookupCount (m : List (String × Nat)) (k : String) : Nat :=
  match m.find? (fun p => p.1 = k) with
  | some p => p.2
  | none => 0

/-- The chart construction shared by both halves of `stats`: count the
occurrences of each key into a dict, sort the keys, and emit the
parallel counts list. -/
def chartOf (keys : List String) : List String × List Nat :=
  (sortStrings ((keys.foldl bump []).map (fun p => p.1)),
   (sortStrings ((keys.foldl bump []).map (fun p => p.1))).map
     (lookupCount (keys.foldl bump [])))

/-- A donation's bucket key:
`d.pickup_time.strftime("%Y-%m") if d.pickup_time else "Unknown"`. -/
def donationKey (d : Donation) : String :=
  match d.pickup_time with
  | some t => fmtYM t
  | none => "Unknown"

/-- The donations half of `stats`. -/
def donationChart (ds : List Donation) : List String × List Nat :=
  chartOf (ds.map donationKey)

/-- Collect every report's timestamp; `none` as soon as one is absent
(`r.report_time.strftime(...)` raises `AttributeError` on `None`). -/
def reportTimes : List Report → Option (List DateTime)
  | [] => some []
  | r :: rest =>
    match r.report_time, reportTimes rest with
    | some t, some ts => some (t :: ts)
    | _, _ => none

/-- The reports half of `stats`: an error when any report lacks its
timestamp, otherwise the chart of the `"%Y-%m"` keys. -/
def reportChartE (rs : List Report) : Except Unit (List String × List Nat) :=
  match reportTimes rs with
  | none => .error ()
  | some ts => .ok (chartOf (ts.map fmtYM))

/-- Outcome of the `stats` view. -/
inductive StatsResult where
  /-- The non-admin branch: flash a message and redirect. -/
  | denied (flash : String) (redirectTo : String)
  /-- The rendered analytics page data. -/
  | page (donationData reportData : List String × List Nat)
  /-- An exception raised while aggregating the reports. -/
  | error
deriving DecidableEq, Repr

/-- The `stats` handler: admin gate, then both monthly charts. -/
def stats (st : AppState) (u : User) : StatsResult :=
  if u.role ≠ "admin" then
    .denied "You are not authorized to view analytics." "dashboard"
  else
    match reportChartE st.reports with
    | .error _ => .error
    | .ok rc => .page (donationChart st.donations) rc

/-- Outcome of one `geolocator.geocode(address)` call: a coordinate
pair, an empty result (`None`), or a raised transport exception. -/
inductive GeoResult where
  /-- The provider returned a location object. -/
  | found (lat lng : Rat)
  /-- The provider returned `None` (no match). -/
  | noMatch
  /-- The call raised (transport or provider failure). -/
  | failure
deriving DecidableEq, Repr

/-- A map marker `{lat, lng, popup}`. -/
structure Marker where
  lat : Rat
  lng : Rat
  popup : String
deriving DecidableEq, Repr

/-- The fixed city-center fallback latitude `12.9716`. -/
def defaultLat : Rat := 129716 / 10000

/-- The fixed city-center fallback longitude `77.5946`. -/
def defaultLng : Rat := 775946 / 10000

/-- The reports map popup HTML fragment. -/
def reportPopup (r : Report) : String :=
  "<strong>" ++ r.animal_type ++ "</strong><br>" ++ r.description ++
    "<br><em>" ++ r.location ++ "</em><br><a href='/report_details/" ++
    toString r.id ++ "' target='_blank'>View Details</a>"

/-- The donation map popup text. -/
def donationPopup (d : Donation) : String :=
  "Donation: " ++ d.description

/-- Result of processing one report in the `map_view` loop. -/
structure MapStep where
  /-- The report as left in the store (coordinates persisted on a
  successful geocode). -/
  report : Report
  /-- The emitted marker (the reports loop always emits one). -/
  marker : Marker
  /-- Whether `geolocator.geocode` was invoked for this record. -/
  called : Bool
deriving DecidableEq, Repr

/-- One iteration of the `map_view` loop: stored coordinates are used
directly; otherwise the resolver runs, a success is persisted on the
record, and both no-match and failure fall back to the default
coordinate while still emitting the marker. -/
def processReport (geo : String → GeoResult) (r : Report) : MapStep :=
  match r.latitude, r.longitude with
  | some lat, some lng => ⟨r, ⟨lat, lng, reportPopup r⟩, false⟩
  | _, _ =>
    match geo r.location with
    | .found lat lng =>
      ⟨{ r with latitude := some lat, longitude := some lng },
        ⟨lat, lng, reportPopup r⟩, true⟩
    | .noMatch => ⟨r, ⟨defaultLat, defaultLng, reportPopup r⟩, true⟩
    | .failure => ⟨r, ⟨defaultLat, defaultLng, reportPopup r⟩, true⟩

/-- Result of processing one donation in the `donation_map` loop. -/
structure DonationStep where
  /-- The donation as left in the store. -/
  donation : Donation
  /-- The emitted marker, or `none` when the loop `continue`s. -/
  marker : Option Marker
  /-- Whether `geolocator.geocode` was invoked for this record. -/
  called : Bool
deriving DecidableEq, Repr

/-- One iteration of the `donation_map` loop: stored coordinates are
used directly; otherwise the resolver runs, a success is persisted on
the record, and both no-match and failure skip the record
(`continue`). -/
def processDonation (geo : String → GeoResult) (d : Donation) : DonationStep :=
  match d.pickup_latitude, d.pickup_longitude with
  | some lat, some lng => ⟨d, some ⟨lat, lng, donationPopup d⟩, false⟩
  | _, _ =>
    match geo d.pickup_location with
    | .found lat lng =>
      ⟨{ d with pickup_latitude := some lat, pickup_longitude := some lng },
        some ⟨lat, lng, donationPopup d⟩, true⟩
    | .noMatch => ⟨d, none, true⟩
    | .failure => ⟨d, none, true⟩

/-- Output of a map view builder: the store as left after the loop, the
marker list in record order, and the number of resolver invocations. -/
structure MapViewResult where
  /-- The processed records, with any freshly geocoded coordinates
  persisted. -/
  store : List Report
  /-- The emitted markers. -/
  markers : List Marker
  /-- How many times the resolver was invoked. -/
  calls : Nat
deriving DecidableEq, Repr

/-- Output of the donation map builder. -/
structure DonationMapResult where
  /-- The processed records. -/
  store : List Donation
  /-- The emitted markers. -/
  markers : List Marker
  /-- How many times the resolver was invoked. -/
  calls : Nat
deriving DecidableEq, Repr

/-- The `map_view` marker loop over the fetched record set. -/
def mapViewLoop (geo : String → GeoResult) : List Report → MapViewResult
  | [] => ⟨[], [], 0⟩
  | r :: rest =>
    let s := processReport geo r
    let res := mapViewLoop geo rest
    ⟨s.report :: res.store, s.marker :: res.markers,
      (if s.called then 1 else 0) + res.calls⟩

/-- The `donation_map` marker loop over the fetched record set. -/
def donationLoop (geo : String → GeoResult) : List Donation → DonationMapResult
  | [] => ⟨[], [], 0⟩
  | d :: rest =>
    let s := processDonation geo d
    let res := donationLoop geo rest
    ⟨s.donation :: res.store,
      (match s.marker with | some m => m :: res.markers | none => res.markers),
      (if s.called then 1 else 0) + res.calls⟩

/-- `Report.animal_type.ilike('%filter%')`: case-insensitive substring
match. -/
def ilikeSub (pat s : String) : Bool :=
  decide ((strLower pat).data <:+: (strLower s).data)

/-- The record set fetched by `map_view`: filtered by animal type when
the query parameter is a non-empty string, the full table otherwise. -/
def filteredReports (store : List Report) (animal_filter : String) : List Report :=
  if animal_filter ≠ "" then
    store.filter (fun r => ilikeSub animal_filter r.animal_type)
  else store

/-- The `map_view` handler body (markers and geocode side effects; the
presentation-only `distinct_animals` and `heat_data` outputs are not
modelled). -/
def map_view (geo : String → GeoResult) (store : List Report)
    (animal_filter : String) : MapViewResult :=
  mapViewLoop geo (filteredReports store animal_filter)

/-- The `donation_map` handler body. -/
def donation_map (geo : String → GeoResult) (store : List Donation) : DonationMapResult :=
  donationLoop geo store

/-! Concrete sample data used to exercise the model. -/

/-- A resolver that always finds the coordinate (10, 20). -/
def geoFound : String → GeoResult := fun _ => GeoResult.found 10 20

/-- A resolver that never matches. -/
def geoNoMatch : String → GeoResult := fun _ => GeoResult.noMatch

/-- A resolver whose calls always raise. -/
def geoFail : String → GeoResult := fun _ => GeoResult.failure

/-- A report that already carries stored coordinates (1, 2). -/
def reportWithCoords : Report :=
  ⟨1, "Dog", "injured", "MG Road", "99", some ⟨2024, 1, 1, 0, 0⟩, 1, none, some 1, some 2⟩

/-- A report with null coordinates. -/
def reportNoCoords : Report :=
  ⟨2, "Cat", "stray", "BTM Layout", "98", some ⟨2024, 2, 1, 0, 0⟩, 1, none, none, none⟩

/-- A report whose `report_time` column is null. -/
def reportNoTime : Report :=
  ⟨3, "Dog", "hurt", "addr", "c", none, 1, none, none, none⟩

/-- A donation that already carries stored coordinates (1, 2). -/
def donationWithCoords : Donation :=
  ⟨1, "rice", "cooked", "5", "Indiranagar", some ⟨2024, 1, 5, 10, 0⟩, 1, some 1, some 2⟩

/-- A donation with null coordinates. -/
def donationNoCoords : Donation :=
  ⟨2, "bread", "packaged", "2", "Jayanagar", none, 2, none, none⟩

/-- First sample donation with January 2024 pickup time. -/
def donJan1 : Donation :=
  ⟨1, "a", "f", "2", "L1", some ⟨2024, 1, 5, 10, 0⟩, 1, none, none⟩

/-- Second sample donation with January 2024 pickup time. -/
def donJan2 : Donation :=
  ⟨2, "b", "f", "1", "L2", some ⟨2024, 1, 20, 9, 30⟩, 2, none, none⟩

/-- Sample donation with March 2024 pickup time. -/
def donMar : Donation :=
  ⟨3, "c", "f", "3", "L3", some ⟨2024, 3, 2, 8, 0⟩, 1, none, none⟩

/-- The empty store. -/
def emptyState : AppState := ⟨[], [], [], []⟩

/-- A registered donor. -/
def aliceUser : User := ⟨1, "alice", "hpw", "alice@x.com", "donor", 3⟩

/-- A registered administrator. -/
def adminUser : User := ⟨9, "root", "h", "root@x.com", "admin", 0⟩

/-- A server-assigned report timestamp. -/
def sampleNow : DateTime := ⟨2024, 6, 1, 10, 0⟩

/-! Helper lemmas. -/

theorem listLe_total (a : List Char) : ∀ b, listLe a b = true ∨ listLe b a = true := by
  induction a with
  | nil => intro b; left; rfl
  | cons x xs ih =>
    intro b
    cases b with
    | nil => right; rfl
    | cons y ys =>
      by_cases h1 : x.toNat < y.toNat
      · left; simp [listLe, h1]
      · by_cases h2 : y.toNat < x.toNat
        · right; simp [listLe, h2]
        · rcases ih ys with h | h
          · left; simp [listLe, h1, h2, h]
          · right; simp [listLe, h1, h2, h]

theorem listLe_trans (a : List Char) :
    ∀ b c, listLe a b = true → listLe b c = true → listLe a c = true := by
  induction a with
  | nil => intro b c _ _; rfl
  | cons x xs ih =>
    intro b c hab hbc
    cases b with
    | nil => simp [listLe] at hab
    | cons y ys =>
      cases c with
      | nil => simp [listLe] at hbc
      | cons z zs =>
        by_cases hxy : x.toNat < y.toNat
        · by_cases hyz : y.toNat < z.toNat
          · have hxz : x.toNat < z.toNat := Nat.lt_trans hxy hyz
            simp [listLe, hxz]
          · by_cases hzy : z.toNat < y.toNat
            · simp [listLe, hyz, hzy] at hbc
            · have hxz : x.toNat < z.toNat := by omega
              simp [listLe, hxz]
        · by_cases hyx : y.toNat < x.toNat
          · simp [listLe, hxy, hyx] at hab
          · by_cases hyz : y.toNat < z.toNat
            · have hxz : x.toNat < z.toNat := by omega
              simp [listLe, hxz]
            · by_cases hzy : z.toNat < y.toNat
              · simp [listLe, hyz, hzy] at hbc
              · have hxz : ¬ x.toNat < z.toNat := by omega
                have hzx : ¬ z.toNat < x.toNat := by omega
                simp [listLe, hxy, hyx, hyz, hzy, hxz, hzx] at hab hbc ⊢
                exact ih ys zs hab hbc

theorem strLe_total (a b : String) : strLe a b ∨ strLe b a :=
  listLe_total a.data b.data

theorem strLe_trans (a b c : String) : strLe a b → strLe b c → strLe a c :=
  listLe_trans a.data b.data c.data

theorem sortStrings_sorted (l : List String) : (sortStrings l).Sorted strLe :=
  @List.sorted_insertionSort String strLe _ ⟨strLe_total⟩ ⟨strLe_trans⟩ l

theorem sortStrings_perm (l : List String) : (sortStrings l).Perm l :=
  List.perm_insertionSort strLe l

theorem lookupCount_cons_pos (p : String × Nat) (rest : List (String × Nat)) (k : String)
    (h : p.1 = k) : lookupCount (p :: rest) k = p.2 := by
  simp [lookupCount, List.find?_cons_of_pos, h]

theorem lookupCount_cons_neg (p : String × Nat) (rest : List (String × Nat)) (k : String)
    (h : ¬ p.1 = k) : lookupCount (p :: rest) k = lookupCount rest k := by
  simp only [lookupCount]
  rw [List.find?_cons_of_neg]
  simp [h]

theorem lookupCount_nil (k : String) : lookupCount [] k = 0 := rfl

theorem lookupCount_bump (m : List (String × Nat)) :
    ∀ k' k, lookupCount (bump m k') k = lookupCount m k + (if k' = k then 1 else 0) := by
  induction m with
  | nil =>
    intro k' k
    by_cases h : k' = k
    · rw [show bump [] k' = [(k', 1)] from rfl, lookupCount_cons_pos (k', 1) [] k h,
        lookupCount_nil, if_pos h]
    · rw [show bump [] k' = [(k', 1)] from rfl, lookupCount_cons_neg (k', 1) [] k h,
        lookupCount_nil, if_neg h]
  | cons p rest ih =>
    intro k' k
    by_cases hpk' : p.1 = k'
    · have hb : bump (p :: rest) k' = (p.1, p.2 + 1) :: rest := by simp [bump, hpk']
      by_cases hpk : p.1 = k
      · have hk'k : k' = k := by rw [← hpk', hpk]
        rw [hb, lookupCount_cons_pos (p.1, p.2 + 1) rest k hpk,
          lookupCount_cons_pos p rest k hpk, if_pos hk'k]
      · have hk'k : ¬ k' = k := by rw [← hpk']; exact hpk
        rw [hb, lookupCount_cons_neg (p.1, p.2 + 1) rest k hpk,
          lookupCount_cons_neg p rest k hpk, if_neg hk'k]
        omega
    · have hb : bump (p :: rest) k' = p :: bump rest k' := by simp [bump, hpk']
      by_cases hpk : p.1 = k
      · have hk'k : ¬ k' = k := fun he => hpk' (by rw [hpk, he])
        rw [hb, lookupCount_cons_pos p (bump rest k') k hpk,
          lookupCount_cons_pos p rest k hpk, if_neg hk'k]
        omega
      · rw [hb, lookupCount_cons_neg p (bump rest k') k hpk,
          lookupCount_cons_neg p rest k hpk, ih]

theorem lookupCount_foldl_bump (k : String) :
    ∀ (ks : List String) (m : List (String × Nat)),
      lookupCount (ks.foldl bump m) k = lookupCount m k + ks.countP (fun s => s = k) := by
  intro ks
  induction ks with
  | nil => intro m; simp
  | cons s rest ih =>
    intro m
    rw [List.foldl_cons, ih (bump m s), lookupCount_bump, List.countP_cons]
    by_cases h : s = k
    · simp [h]
      omega
    · simp [h]

theorem chartOf_counts (ks : List String) :
    (chartOf ks).2 = (chartOf ks).1.map (fun k => ks.countP (fun s => s = k)) := by
  have h : lookupCount (ks.foldl bump []) = fun k => ks.countP (fun s => s = k) := by
    funext k
    rw [lookupCount_foldl_bump, lookupCount_nil, Nat.zero_add]
  simp only [chartOf, h]

theorem chartOf_labels_sorted (ks : List String) : ((chartOf ks).1).Sorted strLe :=
  sortStrings_sorted _

theorem reportTimes_eq_none (rs : List Report) :
    reportTimes rs = none ↔ ∃ r ∈ rs, r.report_time = none := by
  induction rs with
  | nil => simp [reportTimes]
  | cons r rest ih =>
    constructor
    · intro h
      rcases ht : r.report_time with _ | t
      · exact ⟨r, List.mem_cons_self r rest, ht⟩
      · rcases hr : reportTimes rest with _ | ts
        · obtain ⟨r0, hr0, hr0t⟩ := ih.mp hr
          exact ⟨r0, List.mem_cons_of_mem _ hr0, hr0t⟩
        · rw [show reportTimes (r :: rest) =
            (match r.report_time, reportTimes rest with
              | some t, some ts => some (t :: ts)
              | _, _ => none) from rfl, ht, hr] at h
          simp at h
    · rintro ⟨r0, hr0, hr0t⟩
      rcases List.mem_cons.mp hr0 with he | hm
      · subst he
        rw [show reportTimes (r0 :: rest) =
            (match r0.report_time, reportTimes rest with
              | some t, some ts => some (t :: ts)
              | _, _ => none) from rfl, hr0t]
      · have : reportTimes rest = none := ih.mpr ⟨r0, hm, hr0t⟩
        rw [show reportTimes (r :: rest) =
            (match r.report_time, reportTimes rest with
              | some t, some ts => some (t :: ts)
              | _, _ => none) from rfl, this]
        rcases r.report_time with _ | t <;> rfl

theorem mapViewLoop_markers_length (geo : String → GeoResult) :
    ∀ rs, (mapViewLoop geo rs).markers.length = rs.length := by
  intro rs
  induction rs with
  | nil => rfl
  | cons r rest ih => simp [mapViewLoop, ih]

theorem donationLoop_markers_filterMap (geo : String → GeoResult) :
    ∀ ds, (donationLoop geo ds).markers =
      ds.filterMap (fun d => (processDonation geo d).marker) := by
  intro ds
  induction ds with
  | nil => rfl
  | cons d rest ih =>
    simp only [donationLoop, List.filterMap_cons]
    cases h : (processDonation geo d).marker <;> simp [h, ih]

theorem mapViewLoop_calls_zero (geo : String → GeoResult) :
    ∀ rs, (∀ r ∈ rs, r.latitude ≠ none ∧ r.longitude ≠ none) →
      (mapViewLoop geo rs).calls = 0 := by
  intro rs
  induction rs with
  | nil => intro _; rfl
  | cons r rest ih =>
    intro h
    have hr := h r (List.mem_cons_self r rest)
    have hrest := fun r0 hr0 => h r0 (List.mem_cons_of_mem _ hr0)
    rcases hla : r.latitude with _ | a
    · exact absurd hla hr.1
    · rcases hlo : r.longitude with _ | b
      · exact absurd hlo hr.2
      · simp [mapViewLoop, processReport, hla, hlo, ih hrest]

theorem donationLoop_calls_zero (geo : String → GeoResult) :
    ∀ ds, (∀ d ∈ ds, d.pickup_latitude ≠ none ∧ d.pickup_longitude ≠ none) →
      (donationLoop geo ds).calls = 0 := by
  intro ds
  induction ds with
  | nil => intro _; rfl
  | cons d rest ih =>
    intro h
    have hd := h d (List.mem_cons_self d rest)
    have hrest := fun d0 hd0 => h d0 (List.mem_cons_of_mem _ hd0)
    rcases hla : d.pickup_latitude with _ | a
    · exact absurd hla hd.1
    · rcases hlo : d.pickup_longitude with _ | b
      · exact absurd hlo hd.2
      · simp [donationLoop, processDonation, hla, hlo, ih hrest]

theorem mem_of_mem_dropWhile {A : Type} {p : A → Bool} :
    ∀ {l : List A} {a : A}, a ∈ l.dropWhile p → a ∈ l := by
  intro l
  induction l with
  | nil => intro a h; simp [List.dropWhile] at h
  | cons c cs ih =>
    intro a h
    by_cases hc : p c
    · rw [List.dropWhile_cons, if_pos hc] at h
      exact List.mem_cons_of_mem _ (ih h)
    · rw [List.dropWhile_cons, if_neg hc] at h
      exact h

theorem dropWhile_head_false {A : Type} {p : A → Bool} :
    ∀ {l : List A} {x : A} {xs : List A}, l.dropWhile p = x :: xs → p x = false := by
  intro l
  induction l with
  | nil => intro x xs h; simp [List.dropWhile] at h
  | cons c cs ih =>
    intro x xs h
    by_cases hc : p c
    · rw [List.dropWhile_cons, if_pos hc] at h
      exact ih h
    · rw [List.dropWhile_cons, if_neg hc] at h
      injection h with h1 _
      subst h1
      simpa using hc

theorem mem_stripChars {p : Char → Bool} {l : List Char} {a : Char}
    (h : a ∈ stripChars p l) : a ∈ l := by
  unfold stripChars at h
  rw [List.mem_reverse] at h
  have h2 := mem_of_mem_dropWhile h
  rw [List.mem_reverse] at h2
  exact mem_of_mem_dropWhile h2

theorem secure_filename_keeps (g : String) :
    ∀ a ∈ (secure_filename g).data, secureKeep a = true := by
  intro a h
  unfold secure_filename at h
  have h2 := mem_stripChars h
  exact (List.mem_filter.mp h2).2

theorem secure_filename_data (g : String) :
    (secure_filename g).data = stripChars (fun c => c = '.' || c = '_')
      ((List.intercalate ['_'] (splitWs (g.data.map fun c => if c = '/' then ' ' else c))).filter
        secureKeep) := rfl

theorem stripChars_ne_dotdot (l : List Char) :
    stripChars (fun c => c = '.' || c = '_') l ≠ ['.', '.'] := by
  intro h
  unfold stripChars at h
  have h2 : ((l.dropWhile fun c => c = '.' || c = '_').reverse.dropWhile
      fun c => c = '.' || c = '_') = ['.', '.'] := by
    have := congrArg List.reverse h
    simpa using this
  have h3 := dropWhile_head_false h2
  simp at h3

theorem secure_filename_ne_dotdot (g : String) : secure_filename g ≠ ".." := by
  intro heq
  have hdata : (secure_filename g).data = ['.', '.'] := congrArg String.data heq
  rw [secure_filename_data] at hdata
  exact stripChars_ne_dotdot _ hdata

/-! Claim theorems. -/

/-- C1: for every Report or Donation whose stored coordinates are
non-null, the map view builders use the stored latitude/longitude pair
and do not invoke the geocoding resolver for that record; after a
successful geocode the record carries coordinates, so a second builder
invocation performs no resolver call for that record, and a full store
of coordinate-bearing records yields zero resolver calls. -/
theorem map_builders_use_cached_coordinates
    (geo geo2 : String → GeoResult) (r : Report) (d : Donation) (lat lng : Rat) :
    ((r.latitude = some lat ∧ r.longitude = some lng) →
      processReport geo r = ⟨r, ⟨lat, lng, reportPopup r⟩, false⟩) ∧
    ((d.pickup_latitude = some lat ∧ d.pickup_longitude = some lng) →
      processDonation geo d = ⟨d, some ⟨lat, lng, donationPopup d⟩, false⟩) ∧
    ((∃ la ln, geo r.location = GeoResult.found la ln) →
      (processReport geo2 (processReport geo r).report).called = false) ∧
    ((∃ la ln, geo d.pickup_location = GeoResult.found la ln) →
      (processDonation geo2 (processDonation geo d).donation).called = false) ∧
    (∀ store, (∀ r0 ∈ store, r0.latitude ≠ none ∧ r0.longitude ≠ none) →
      (map_view geo store "").calls = 0) ∧
    (∀ dstore, (∀ d0 ∈ dstore, d0.pickup_latitude ≠ none ∧ d0.pickup_longitude ≠ none) →
      (donation_map geo dstore).calls = 0) := by
  refine ⟨?_, ?_, ?_, ?_, ?_, ?_⟩
  · rintro ⟨h1, h2⟩
    simp [processReport, h1, h2]
  · rintro ⟨h1, h2⟩
    simp [processDonation, h1, h2]
  · rintro ⟨la, ln, hg⟩
    rcases hla : r.latitude with _ | a <;> rcases hlo : r.longitude with _ | b <;>
      simp [processReport, hla, hlo, hg]
  · rintro ⟨la, ln, hg⟩
    rcases hla : d.pickup_latitude with _ | a <;>
      rcases hlo : d.pickup_longitude with _ | b <;>
      simp [processDonation, hla, hlo, hg]
  · intro store h
    unfold map_view
    rw [show filteredReports store "" = store from by simp [filteredReports]]
    exact mapViewLoop_calls_zero geo store h
  · intro dstore h
    exact donationLoop_calls_zero geo dstore h

/-- Witness for C1 at concrete inputs. -/
theorem map_builders_use_cached_coordinates_witness :
    processReport geoFound reportWithCoords =
      ⟨reportWithCoords, ⟨1, 2, reportPopup reportWithCoords⟩, false⟩ ∧
    processDonation geoFound donationWithCoords =
      ⟨donationWithCoords, some ⟨1, 2, donationPopup donationWithCoords⟩, false⟩ ∧
    (processReport geoFound (processReport geoFound reportNoCoords).report).called = false ∧
    (processDonation geoFound (processDonation geoFound donationNoCoords).donation).called = false ∧
    (map_view geoFound [reportWithCoords] "").calls = 0 ∧
    (donation_map geoFound [donationWithCoords]).calls = 0 := by
  refine ⟨?_, ?_, ?_, ?_, ?_, ?_⟩
  · exact (map_builders_use_cached_coordinates geoFound geoFound reportWithCoords
      donationWithCoords 1 2).1 ⟨rfl, rfl⟩
  · exact (map_builders_use_cached_coordinates geoFound geoFound reportWithCoords
      donationWithCoords 1 2).2.1 ⟨rfl, rfl⟩
  · exact (map_builders_use_cached_coordinates geoFound geoFound reportNoCoords
      donationNoCoords 1 2).2.2.1 ⟨10, 20, rfl⟩
  · exact (map_builders_use_cached_coordinates geoFound geoFound reportNoCoords
      donationNoCoords 1 2).2.2.2.1 ⟨10, 20, rfl⟩
  · exact (map_builders_use_cached_coordinates geoFound geoFound reportWithCoords
      donationWithCoords 1 2).2.2.2.2.1 [reportWithCoords] (by decide)
  · exact (map_builders_use_cached_coordinates geoFound geoFound reportWithCoords
      donationWithCoords 1 2).2.2.2.2.2 [donationWithCoords] (by decide)

/-- C3 counterexample: a donation whose address the resolver cannot
match (empty result, no exception) is omitted from the donation map's
marker list — the builder does not substitute the fallback coordinate
for Donations, contradicting the claim that Reports and Donations are
treated alike. -/
theorem donation_map_nomatch_omits_marker_cx :
    (donation_map geoNoMatch [donationNoCoords]).markers = [] := rfl

/-- C3 (amended): on a resolver no-match, the Reports builder
substitutes the fixed city-center fallback coordinate (12.9716,
77.5946) and still emits the marker, while the Donations builder omits
the record from the marker list; the Reports builder emits exactly one
marker per fetched record. -/
theorem nomatch_fallback_reports_skip_donations
    (geo : String → GeoResult) (r : Report) (d : Donation) :
    ((r.latitude = none ∨ r.longitude = none) → geo r.location = GeoResult.noMatch →
      processReport geo r = ⟨r, ⟨defaultLat, defaultLng, reportPopup r⟩, true⟩) ∧
    ((d.pickup_latitude = none ∨ d.pickup_longitude = none) →
      geo d.pickup_location = GeoResult.noMatch →
      processDonation geo d = ⟨d, none, true⟩) ∧
    (∀ store f, (map_view geo store f).markers.length = (filteredReports store f).length) := by
  refine ⟨?_, ?_, ?_⟩
  · rintro (hla | hlo) hg
    · simp [processReport, hla, hg]
    · rcases hla : r.latitude with _ | a
      · simp [processReport, hla, hg]
      · simp [processReport, hla, hlo, hg]
  · rintro (hla | hlo) hg
    · simp [processDonation, hla, hg]
    · rcases hla : d.pickup_latitude with _ | a
      · simp [processDonation, hla, hg]
      · simp [processDonation, hla, hlo, hg]
  · intro store f
    exact mapViewLoop_markers_length geo _

/-- Witness for the amended C3 at concrete inputs. -/
theorem nomatch_fallback_reports_skip_donations_witness :
    processReport geoNoMatch reportNoCoords =
      ⟨reportNoCoords, ⟨defaultLat, defaultLng, reportPopup reportNoCoords⟩, true⟩ ∧
    processDonation geoNoMatch donationNoCoords = ⟨donationNoCoords, none, true⟩ ∧
    (map_view geoNoMatch [reportNoCoords] "").markers.length =
      (filteredReports [reportNoCoords] "").length := by
  refine ⟨?_, ?_, ?_⟩
  · exact (nomatch_fallback_reports_skip_donations geoNoMatch reportNoCoords
      donationNoCoords).1 (Or.inl rfl) rfl
  · exact (nomatch_fallback_reports_skip_donations geoNoMatch reportNoCoords
      donationNoCoords).2.1 (Or.inl rfl) rfl
  · exact (nomatch_fallback_reports_skip_donations geoNoMatch reportNoCoords
      donationNoCoords).2.2 [reportNoCoords] ""

/-- C4: when the geocoding call raises, the Reports builder falls back
to the default coordinate and still emits that record's marker, the
Donations builder omits the record; neither loop aborts — the Reports
builder emits one marker per fetched record, and the donation marker
list is the record-by-record filter-map over the whole batch. -/
theorem failure_fallback_and_loop_continues
    (geo : String → GeoResult) (r : Report) (d : Donation) :
    ((r.latitude = none ∨ r.longitude = none) → geo r.location = GeoResult.failure →
      processReport geo r = ⟨r, ⟨defaultLat, defaultLng, reportPopup r⟩, true⟩) ∧
    ((d.pickup_latitude = none ∨ d.pickup_longitude = none) →
      geo d.pickup_location = GeoResult.failure →
      processDonation geo d = ⟨d, none, true⟩) ∧
    (∀ store f, (map_view geo store f).markers.length = (filteredReports store f).length) ∧
    (∀ ds, (donation_map geo ds).markers =
      ds.filterMap (fun d0 => (processDonation geo d0).marker)) := by
  refine ⟨?_, ?_, ?_, ?_⟩
  · rintro (hla | hlo) hg
    · simp [processReport, hla, hg]
    · rcases hla : r.latitude with _ | a
      · simp [processReport, hla, hg]
      · simp [processReport, hla, hlo, hg]
  · rintro (hla | hlo) hg
    · simp [processDonation, hla, hg]
    · rcases hla : d.pickup_latitude with _ | a
      · simp [processDonation, hla, hg]
      · simp [processDonation, hla, hlo, hg]
  · intro store f
    exact mapViewLoop_markers_length geo _
  · intro ds
    exact donationLoop_markers_filterMap geo ds

/-- Witness for C4 at concrete inputs. -/
theorem failure_fallback_and_loop_continues_witness :
    processReport geoFail reportNoCoords =
      ⟨reportNoCoords, ⟨defaultLat, defaultLng, reportPopup reportNoCoords⟩, true⟩ ∧
    processDonation geoFail donationNoCoords = ⟨donationNoCoords, none, true⟩ ∧
    (map_view geoFail [reportNoCoords, reportWithCoords] "").markers.length =
      (filteredReports [reportNoCoords, reportWithCoords] "").length ∧
    (donation_map geoFail [donationNoCoords, donationWithCoords]).markers =
      [donationNoCoords, donationWithCoords].filterMap
        (fun d0 => (processDonation geoFail d0).marker) := by
  refine ⟨?_, ?_, ?_, ?_⟩
  · exact (failure_fallback_and_loop_continues geoFail reportNoCoords
      donationNoCoords).1 (Or.inl rfl) rfl
  · exact (failure_fallback_and_loop_continues geoFail reportNoCoords
      donationNoCoords).2.1 (Or.inl rfl) rfl
  · exact (failure_fallback_and_loop_continues geoFail reportNoCoords
      donationNoCoords).2.2.1 [reportNoCoords, reportWithCoords] ""
  · exact (failure_fallback_and_loop_continues geoFail reportNoCoords
      donationNoCoords).2.2.2 [donationNoCoords, donationWithCoords]

/-- C5: a successful Donation submission appends exactly one Donation
row tied to the authenticated submitter and adds exactly 10 points to
that submitter; a successful Report submission appends exactly one
Report row and adds exactly 5 points; all other rows are left
unchanged, and the updated users list is the pointwise points update of
the old one. -/
theorem intake_persists_row_and_points
    (st : AppState) (uid nid nid2 : Nat) (dform rform : Form)
    (de ft qt pl pts : String) (pt : DateTime)
    (aty rde rloc rct : String) (now : DateTime)
    (hd1 : formGet dform "description" = some de)
    (hd2 : formGet dform "food_type" = some ft)
    (hd3 : formGet dform "quantity" = some qt)
    (hd4 : formGet dform "pickup_location" = some pl)
    (hd5 : formGet dform "pickup_time" = some pts)
    (hd6 : parseTimestamp pts = some pt)
    (hr1 : formGet rform "animal_type" = some aty)
    (hr2 : formGet rform "description" = some rde)
    (hr3 : formGet rform "location" = some rloc)
    (hr4 : formGet rform "contact" = some rct) :
    add_donation st uid nid dform =
      ({ st with
          donations := st.donations ++ [⟨nid, de, ft, qt, pl, some pt, uid, none, none⟩],
          users := st.users.map (fun u =>
            if u.id = uid then { u with points := u.points + 10 } else u) },
       ["Donation added successfully!"], .ok "dashboard") ∧
    report_animal st uid nid2 rform none now =
      ({ st with
          reports := st.reports ++
            [⟨nid2, aty, rde, rloc, rct, some now, uid, none, none, none⟩],
          users := st.users.map (fun u =>
            if u.id = uid then { u with points := u.points + 5 } else u) },
       ["Report submitted successfully!"], .ok "dashboard") ∧
    (∀ u0 ∈ st.users, u0.id = uid →
      { u0 with points := u0.points + 10 } ∈ (add_donation st uid nid dform).1.users) := by
  refine ⟨?_, ?_, ?_⟩
  · simp [add_donation, hd1, hd2, hd3, hd4, hd5, hd6]
  · simp [report_animal, hr1, hr2, hr3, hr4]
  · intro u0 hu0 hid
    simp only [add_donation, hd1, hd2, hd3, hd4, hd5, hd6]
    exact List.mem_map.mpr ⟨u0, hu0, by simp [hid]⟩

/-- Witness for C5 at concrete inputs. -/
theorem intake_persists_row_and_points_witness :
    add_donation ⟨[aliceUser], [], [], []⟩ 1 7
        [("description", "Rice"), ("food_type", "cooked"), ("quantity", "5"),
         ("pickup_location", "X"), ("pickup_time", "2024-06-01T10:00")] =
      ({ users := [⟨1, "alice", "hpw", "alice@x.com", "donor", 13⟩],
          donations := [⟨7, "Rice", "cooked", "5", "X", some ⟨2024, 6, 1, 10, 0⟩, 1, none, none⟩],
          reports := [], events := [] },
       ["Donation added successfully!"], .ok "dashboard") ∧
    report_animal ⟨[aliceUser], [], [], []⟩ 1 8
        [("animal_type", "Dog"), ("description", "hurt"), ("location", "MG Road"),
         ("contact", "99")] none sampleNow =
      ({ users := [⟨1, "alice", "hpw", "alice@x.com", "donor", 8⟩],
          donations := [],
          reports := [⟨8, "Dog", "hurt", "MG Road", "99", some sampleNow, 1, none, none, none⟩],
          events := [] },
       ["Report submitted successfully!"], .ok "dashboard") := by
  have h := intake_persists_row_and_points ⟨[aliceUser], [], [], []⟩ 1 7 8
      [("description", "Rice"), ("food_type", "cooked"), ("quantity", "5"),
       ("pickup_location", "X"), ("pickup_time", "2024-06-01T10:00")]
      [("animal_type", "Dog"), ("description", "hurt"), ("location", "MG Road"),
       ("contact", "99")]
      "Rice" "cooked" "5" "X" "2024-06-01T10:00" ⟨2024, 6, 1, 10, 0⟩
      "Dog" "hurt" "MG Road" "99" sampleNow
      rfl rfl rfl rfl rfl rfl rfl rfl rfl rfl
  refine ⟨?_, ?_⟩
  · rw [h.1]; rfl
  · rw [h.2.1]; rfl

/-- C6: the image allow-list and sanitisation behaviour of Report
intake: `secure_filename` output contains no path separator, is never
the traversal component "..", and contains no "../" sequence; a file is
accepted only when its lower-cased extension is in the allow-list; a
disallowed file (such as payload.exe) leaves `image_filename` unset
while the report row is still persisted; an allowed file persists the
sanitised name. -/
theorem report_image_allowlist_sanitized
    (st : AppState) (uid nid : Nat) (form : Form) (now : DateTime)
    (fn aty de loc ct : String)
    (h1 : formGet form "animal_type" = some aty)
    (h2 : formGet form "description" = some de)
    (h3 : formGet form "location" = some loc)
    (h4 : formGet form "contact" = some ct) :
    (∀ g : String, '/' ∉ (secure_filename g).data ∧ '\\' ∉ (secure_filename g).data ∧
      secure_filename g ≠ ".." ∧ ¬ (['.', '.', '/'] <:+: (secure_filename g).data)) ∧
    (allowed_file fn = true → strLower (extAfterLastDot fn) ∈ ALLOWED_EXTENSIONS) ∧
    (allowed_file fn = false →
      report_animal st uid nid form (some fn) now =
        ({ st with
            reports := st.reports ++
              [⟨nid, aty, de, loc, ct, some now, uid, none, none, none⟩],
            users := st.users.map (fun u =>
              if u.id = uid then { u with points := u.points + 5 } else u) },
         ["Report submitted successfully!"], .ok "dashboard")) ∧
    (allowed_file fn = true → fn ≠ "" →
      report_animal st uid nid form (some fn) now =
        ({ st with
            reports := st.reports ++
              [⟨nid, aty, de, loc, ct, some now, uid, some (secure_filename fn), none, none⟩],
            users := st.users.map (fun u =>
              if u.id = uid then { u with points := u.points + 5 } else u) },
         ["Report submitted successfully!"], .ok "dashboard")) ∧
    allowed_file "payload.exe" = false := by
  refine ⟨?_, ?_, ?_, ?_, by decide⟩
  · intro g
    have hsep : '/' ∉ (secure_filename g).data := fun hmem =>
      absurd (secure_filename_keeps g _ hmem) (by decide)
    refine ⟨hsep, ?_, secure_filename_ne_dotdot g, ?_⟩
    · intro hmem
      exact absurd (secure_filename_keeps g _ hmem) (by decide)
    · intro hinf
      exact hsep (hinf.subset (by decide))
  · intro h
    have h2 := ((Bool.and_eq_true _ _).mp h).2
    simpa using h2
  · intro hf
    simp [report_animal, h1, h2, h3, h4, hf]
  · intro ht hne
    simp [report_animal, h1, h2, h3, h4, ht, hne]

/-- Witness for C6 at concrete inputs. -/
theorem report_image_allowlist_sanitized_witness :
    ('/' ∉ (secure_filename "../../evil.png").data ∧
      '\\' ∉ (secure_filename "../../evil.png").data ∧
      secure_filename "../../evil.png" ≠ ".." ∧
      ¬ (['.', '.', '/'] <:+: (secure_filename "../../evil.png").data)) ∧
    strLower (extAfterLastDot "photo.PNG") ∈ ALLOWED_EXTENSIONS ∧
    (report_animal ⟨[aliceUser], [], [], []⟩ 1 4
        [("animal_type", "Dog"), ("description", "d"), ("location", "L"), ("contact", "c")]
        (some "payload.exe") sampleNow).1.reports =
      [⟨4, "Dog", "d", "L", "c", some sampleNow, 1, none, none, none⟩] ∧
    (report_animal ⟨[aliceUser], [], [], []⟩ 1 4
        [("animal_type", "Dog"), ("description", "d"), ("location", "L"), ("contact", "c")]
        (some "../../evil.png") sampleNow).1.reports =
      [⟨4, "Dog", "d", "L", "c", some sampleNow, 1, some "evil.png", none, none⟩] ∧
    allowed_file "payload.exe" = false := by
  have hA := report_image_allowlist_sanitized ⟨[aliceUser], [], [], []⟩ 1 4
      [("animal_type", "Dog"), ("description", "d"), ("location", "L"), ("contact", "c")]
      sampleNow "payload.exe" "Dog" "d" "L" "c" rfl rfl rfl rfl
  have hB := report_image_allowlist_sanitized ⟨[aliceUser], [], [], []⟩ 1 4
      [("animal_type", "Dog"), ("description", "d"), ("location", "L"), ("contact", "c")]
      sampleNow "../../evil.png" "Dog" "d" "L" "c" rfl rfl rfl rfl
  refine ⟨hA.1 "../../evil.png", ?_, ?_, ?_, hA.2.2.2.2⟩
  · exact hB.2.1 (by decide)
  · rw [hA.2.2.1 (by decide)]; decide
  · rw [hB.2.2.2.1 (by decide) (by decide)]; decide

/-- C7 counterexample: a Donation submission missing the required
description field, one with a malformed pickup_time, and a Report
submission with an empty form each end in a raised exception with no
flash message and no redirect — not the user-visible message and
redirect back to the originating form that the claim requires — though
the store is indeed unchanged. -/
theorem intake_validation_error_cx :
    add_donation emptyState 1 1 [("food_type", "x")] =
      (emptyState, [], Except.error (HandlerError.keyError "description")) ∧
    add_donation emptyState 1 1
        [("description", "d"), ("food_type", "f"), ("quantity", "5"),
         ("pickup_location", "X"), ("pickup_time", "junk")] =
      (emptyState, [], Except.error HandlerError.valueError) ∧
    report_animal emptyState 1 1 [] none sampleNow =
      (emptyState, [], Except.error (HandlerError.keyError "animal_type")) :=
  ⟨rfl, rfl, rfl⟩

/-- C7 (amended): a missing required form field raises `KeyError` and a
malformed timestamp raises `ValueError`; the outcome is a propagated
exception — no flash message and no redirect — and the store is
unchanged in every error case, so no partial record is persisted. -/
theorem intake_errors_unpersisted (st : AppState) (uid nid : Nat) :
    (∀ form, formGet form "description" = none →
      add_donation st uid nid form =
        (st, [], Except.error (HandlerError.keyError "description"))) ∧
    (∀ form de ft qt pl ts, formGet form "description" = some de →
      formGet form "food_type" = some ft → formGet form "quantity" = some qt →
      formGet form "pickup_location" = some pl → formGet form "pickup_time" = some ts →
      parseTimestamp ts = none →
      add_donation st uid nid form = (st, [], Except.error HandlerError.valueError)) ∧
    (∀ form img now, formGet form "animal_type" = none →
      report_animal st uid nid form img now =
        (st, [], Except.error (HandlerError.keyError "animal_type"))) ∧
    (∀ form e, (add_donation st uid nid form).2.2 = Except.error e →
      (add_donation st uid nid form).1 = st ∧ (add_donation st uid nid form).2.1 = []) ∧
    (∀ form img now e, (report_animal st uid nid form img now).2.2 = Except.error e →
      (report_animal st uid nid form img now).1 = st ∧
        (report_animal st uid nid form img now).2.1 = []) := by
  refine ⟨?_, ?_, ?_, ?_, ?_⟩
  · intro form h
    simp [add_donation, h]
  · intro form de ft qt pl ts hh1 hh2 hh3 hh4 hh5 hh6
    simp [add_donation, hh1, hh2, hh3, hh4, hh5, hh6]
  · intro form img now h
    simp [report_animal, h]
  · intro form e h
    rcases hh1 : formGet form "description" with _ | de
    · simp [add_donation, hh1]
    · rcases hh2 : formGet form "food_type" with _ | ft
      · simp [add_donation, hh1, hh2]
      · rcases hh3 : formGet form "quantity" with _ | qt
        · simp [add_donation, hh1, hh2, hh3]
        · rcases hh4 : formGet form "pickup_location" with _ | pl
          · simp [add_donation, hh1, hh2, hh3, hh4]
          · rcases hh5 : formGet form "pickup_time" with _ | ts
            · simp [add_donation, hh1, hh2, hh3, hh4, hh5]
            · rcases hh6 : parseTimestamp ts with _ | pt
              · simp [add_donation, hh1, hh2, hh3, hh4, hh5, hh6]
              · simp [add_donation, hh1, hh2, hh3, hh4, hh5, hh6] at h
  · intro form img now e h
    rcases hh1 : formGet form "animal_type" with _ | aty
    · simp [report_animal, hh1]
    · rcases hh2 : formGet form "description" with _ | de
      · simp [report_animal, hh1, hh2]
      · rcases hh3 : formGet form "location" with _ | loc
        · simp [report_animal, hh1, hh2, hh3]
        · rcases hh4 : formGet form "contact" with _ | ct
          · simp [report_animal, hh1, hh2, hh3, hh4]
          · simp [report_animal, hh1, hh2, hh3, hh4] at h

/-- Witness for the amended C7 at concrete inputs. -/
theorem intake_errors_unpersisted_witness :
    add_donation emptyState 2 3 [] =
      (emptyState, [], Except.error (HandlerError.keyError "description")) ∧
    add_donation emptyState 2 3
        [("description", "d"), ("food_type", "f"), ("quantity", "1"),
         ("pickup_location", "Y"), ("pickup_time", "2024-99-99T99:99")] =
      (emptyState, [], Except.error HandlerError.valueError) ∧
    report_animal emptyState 2 3 [] none sampleNow =
      (emptyState, [], Except.error (HandlerError.keyError "animal_type")) ∧
    (add_donation emptyState 2 3 []).1 = emptyState := by
  refine ⟨?_, ?_, ?_, ?_⟩
  · exact (intake_errors_unpersisted emptyState 2 3).1 [] rfl
  · exact (intake_errors_unpersisted emptyState 2 3).2.1
      [("description", "d"), ("food_type", "f"), ("quantity", "1"),
       ("pickup_location", "Y"), ("pickup_time", "2024-99-99T99:99")]
      "d" "f" "1" "Y" "2024-99-99T99:99" rfl rfl rfl rfl rfl rfl
  · exact (intake_errors_unpersisted emptyState 2 3).2.2.1 [] none sampleNow rfl
  · exact ((intake_errors_unpersisted emptyState 2 3).2.2.2.1 []
      (HandlerError.keyError "description") rfl).1

/-- C8 counterexample: with "alice" already registered, a registration
re-using the username "alice" under a fresh email passes the
pre-write check (which only inspects the email) and reaches the
database write, which raises the uniqueness-constraint error — the
duplicate username is not caught before the write and no user-visible
message is flashed. -/
theorem register_duplicate_username_cx :
    register (fun p => p) ⟨[aliceUser], [], [], []⟩ 2
        [("username", "alice"), ("password", "pw"), ("email", "new@x.com"),
         ("role", "donor")] =
      (⟨[aliceUser], [], [], []⟩, [], Except.error HandlerError.integrityError) := rfl

/-- C8 (amended): a registration whose email is already registered is
caught before the write and surfaced as a flash message with a redirect
back to the registration form, persisting no row; a registration whose
email is fresh but whose username is already registered reaches the
write and raises the lower-level uniqueness-constraint error, also
persisting no row. -/
theorem register_duplicate_handling
    (hashFn : String → String) (st : AppState) (nid : Nat) (form : Form)
    (un pw em rl : String)
    (h1 : formGet form "username" = some un) (h2 : formGet form "password" = some pw)
    (h3 : formGet form "email" = some em) (h4 : formGet form "role" = some rl) :
    ((∃ u ∈ st.users, u.email = em) →
      register hashFn st nid form =
        (st, ["Email already registered. Please use a different email."],
          Except.ok "register")) ∧
    ((∀ u ∈ st.users, u.email ≠ em) → (∃ u ∈ st.users, u.username = un) →
      register hashFn st nid form = (st, [], Except.error HandlerError.integrityError)) := by
  refine ⟨?_, ?_⟩
  · intro hex
    have hany : st.users.any (fun u => u.email = em) = true := by
      rw [List.any_eq_true]
      obtain ⟨u, hu, he⟩ := hex
      exact ⟨u, hu, by simp [he]⟩
    simp [register, h1, h2, h3, h4, hany]
  · intro hall hex
    have hany1 : st.users.any (fun u => u.email = em) = false := by
      rw [List.any_eq_false]
      intro u hu
      simpa using hall u hu
    have hany2 : st.users.any (fun u => u.username = un || u.email = em) = true := by
      rw [List.any_eq_true]
      obtain ⟨u, hu, he⟩ := hex
      exact ⟨u, hu, by simp [he]⟩
    simp [register, h1, h2, h3, h4, hany1, hany2]

/-- Witness for the amended C8 at concrete inputs. -/
theorem register_duplicate_handling_witness :
    register (fun p => p) ⟨[aliceUser], [], [], []⟩ 2
        [("username", "bob"), ("password", "pw"), ("email", "alice@x.com"),
         ("role", "donor")] =
      (⟨[aliceUser], [], [], []⟩,
        ["Email already registered. Please use a different email."],
        Except.ok "register") ∧
    register (fun p => p) ⟨[aliceUser], [], [], []⟩ 2
        [("username", "alice"), ("password", "pw"), ("email", "b@x.com"),
         ("role", "donor")] =
      (⟨[aliceUser], [], [], []⟩, [], Except.error HandlerError.integrityError) := by
  refine ⟨?_, ?_⟩
  · exact (register_duplicate_handling (fun p => p) ⟨[aliceUser], [], [], []⟩ 2
      [("username", "bob"), ("password", "pw"), ("email", "alice@x.com"), ("role", "donor")]
      "bob" "pw" "alice@x.com" "donor" rfl rfl rfl rfl).1 ⟨aliceUser, by simp, rfl⟩
  · exact (register_duplicate_handling (fun p => p) ⟨[aliceUser], [], [], []⟩ 2
      [("username", "alice"), ("password", "pw"), ("email", "b@x.com"), ("role", "donor")]
      "alice" "pw" "b@x.com" "donor" rfl rfl rfl rfl).2 (by decide) ⟨aliceUser, by simp, rfl⟩

/-- C9: the registration handler persists whatever role string the form
supplies; in particular a registrant supplying role "admin" obtains a
User row whose role equals "admin", which passes the string-equality
admin gates of both `create_event` (never flashing the unauthorized
message) and `stats` (never denied). -/
theorem register_role_unrestricted
    (hashFn : String → String) (st : AppState) (nid : Nat) (form : Form)
    (un pw em rl : String)
    (h1 : formGet form "username" = some un) (h2 : formGet form "password" = some pw)
    (h3 : formGet form "email" = some em) (h4 : formGet form "role" = some rl)
    (hfresh : ∀ u ∈ st.users, u.email ≠ em ∧ u.username ≠ un) :
    register hashFn st nid form =
      ({ st with users := st.users ++ [⟨nid, un, hashFn pw, em, rl, 0⟩] },
       ["Registration successful! Please login."], Except.ok "login") ∧
    (rl = "admin" →
      (∀ s n f, (create_event s ⟨nid, un, hashFn pw, em, rl, 0⟩ n f).2.1 ≠
        ["You are not authorized to create events."]) ∧
      (∀ s fl tgt, stats s ⟨nid, un, hashFn pw, em, rl, 0⟩ ≠ StatsResult.denied fl tgt)) := by
  refine ⟨?_, ?_⟩
  · have hany1 : st.users.any (fun u => u.email = em) = false := by
      rw [List.any_eq_false]
      intro u hu
      simpa using (hfresh u hu).1
    have hany2 : st.users.any (fun u => u.username = un || u.email = em) = false := by
      rw [List.any_eq_false]
      intro u hu
      simp [(hfresh u hu).1, (hfresh u hu).2]
    simp [register, h1, h2, h3, h4, hany1, hany2]
  · intro hrl
    subst hrl
    refine ⟨?_, ?_⟩
    · intro s n f
      unfold create_event
      rw [if_neg (by simp)]
      split
      · simp
      · split
        · simp
        · split
          · simp
          · split
            · simp
            · split
              · simp
              · simp
    · intro s fl tgt
      unfold stats
      rw [if_neg (by simp)]
      split
      · simp
      · simp

/-- Witness for C9 at concrete inputs. -/
theorem register_role_unrestricted_witness :
    register (fun p => p) emptyState 1
        [("username", "eve"), ("password", "pw"), ("email", "e@x.com"),
         ("role", "admin")] =
      ({ emptyState with users := emptyState.users ++ [⟨1, "eve", "pw", "e@x.com", "admin", 0⟩] },
       ["Registration successful! Please login."], Except.ok "login") ∧
    (create_event emptyState ⟨1, "eve", "pw", "e@x.com", "admin", 0⟩ 5 []).2.1 ≠
      ["You are not authorized to create events."] ∧
    stats emptyState ⟨1, "eve", "pw", "e@x.com", "admin", 0⟩ ≠
      StatsResult.denied "You are not authorized to view analytics." "dashboard" := by
  have h := register_role_unrestricted (fun p => p) emptyState 1
      [("username", "eve"), ("password", "pw"), ("email", "e@x.com"), ("role", "admin")]
      "eve" "pw" "e@x.com" "admin" rfl rfl rfl rfl (by simp [emptyState])
  exact ⟨h.1, (h.2 rfl).1 emptyState 5 [], (h.2 rfl).2 emptyState _ _⟩

/-- C2: the analytics aggregation on the empty collection yields empty
labels and counts (for both halves); on the 2024-01/2024-01/2024-03
donation example it yields labels ["2024-01", "2024-03"] with counts
[2, 1]; donation labels are always sorted ascending in the string
order, with the counts sequence parallel to the labels (the
multiplicity of each label among the records' bucket keys); and the
reports half buckets by the year-month of report_time with the same
sortedness and parallel-counts properties. -/
theorem stats_monthly_aggregation :
    donationChart [] = ([], []) ∧
    reportChartE [] = .ok ([], []) ∧
    donationChart [donJan1, donJan2, donMar] = (["2024-01", "2024-03"], [2, 1]) ∧
    (∀ ds : List Donation, ((donationChart ds).1).Sorted strLe) ∧
    (∀ ds : List Donation, (donationChart ds).2 =
      (donationChart ds).1.map (fun k => (ds.map donationKey).countP (fun s => s = k))) ∧
    (∀ rs : List Report, ∀ ts : List DateTime, reportTimes rs = some ts →
      reportChartE rs = .ok (chartOf (ts.map fmtYM)) ∧
      ((chartOf (ts.map fmtYM)).1).Sorted strLe ∧
      (chartOf (ts.map fmtYM)).2 = (chartOf (ts.map fmtYM)).1.map
        (fun k => (ts.map fmtYM).countP (fun s => s = k))) := by
  refine ⟨rfl, rfl, by decide, ?_, ?_, ?_⟩
  · intro ds
    exact chartOf_labels_sorted _
  · intro ds
    exact chartOf_counts _
  · intro rs ts h
    refine ⟨?_, chartOf_labels_sorted _, chartOf_counts _⟩
    unfold reportChartE
    rw [h]

/-- Witness for C2 at a concrete report collection. -/
theorem stats_monthly_aggregation_witness :
    reportChartE [reportWithCoords] =
      .ok (chartOf ([(⟨2024, 1, 1, 0, 0⟩ : DateTime)].map fmtYM)) ∧
    ((chartOf ([(⟨2024, 1, 1, 0, 0⟩ : DateTime)].map fmtYM)).1).Sorted strLe ∧
    (chartOf ([(⟨2024, 1, 1, 0, 0⟩ : DateTime)].map fmtYM)).2 =
      (chartOf ([(⟨2024, 1, 1, 0, 0⟩ : DateTime)].map fmtYM)).1.map
        (fun k => ([(⟨2024, 1, 1, 0, 0⟩ : DateTime)].map fmtYM).countP (fun s => s = k)) :=
  stats_monthly_aggregation.2.2.2.2.2 [reportWithCoords] [⟨2024, 1, 1, 0, 0⟩] rfl

/-- C10 counterexample: a Report whose report_time is null makes the
stats aggregation raise (the handler calls `strftime` on the null
unconditionally) — the record is not excluded from the labels/counts
output as the claim states. -/
theorem report_missing_time_causes_error_cx :
    stats ⟨[adminUser], [], [reportNoTime], []⟩ adminUser = StatsResult.error ∧
    reportChartE [reportNoTime] ≠ .ok ([], []) := by
  refine ⟨rfl, ?_⟩
  intro h
  exact Except.noConfusion (show Except.error () = Except.ok (([], []) :
    List String × List Nat) from h)

/-- C10 (amended): a Report lacking report_time causes the monthly
aggregation (and the whole stats view, for an admin) to raise an error
rather than being excluded; when every report carries its timestamp the
aggregation succeeds. -/
theorem report_missing_time_errors (rs : List Report) :
    ((∃ r ∈ rs, r.report_time = none) → reportChartE rs = .error ()) ∧
    ((∀ r ∈ rs, r.report_time ≠ none) → ∃ c, reportChartE rs = .ok c) ∧
    (∀ st u, u.role = "admin" → (∃ r ∈ st.reports, r.report_time = none) →
      stats st u = StatsResult.error) := by
  refine ⟨?_, ?_, ?_⟩
  · intro hex
    unfold reportChartE
    rw [(reportTimes_eq_none rs).mpr hex]
  · intro hall
    rcases hrt : reportTimes rs with _ | ts
    · obtain ⟨r, hr, hrt2⟩ := (reportTimes_eq_none rs).mp hrt
      exact absurd hrt2 (hall r hr)
    · exact ⟨chartOf (ts.map fmtYM), by unfold reportChartE; rw [hrt]⟩
  · intro st u hrole hex
    have he : reportChartE st.reports = .error () := by
      unfold reportChartE
      rw [(reportTimes_eq_none st.reports).mpr hex]
    unfold stats
    rw [if_neg (by simp [hrole])]
    simp only [he]

/-- Witness for the amended C10 at concrete inputs. -/
theorem report_missing_time_errors_witness :
    reportChartE [reportNoTime] = .error () ∧
    (∃ c, reportChartE [reportWithCoords] = .ok c) ∧
    stats ⟨[adminUser], [], [reportNoTime], []⟩ adminUser = StatsResult.error := by
  refine ⟨?_, ?_, ?_⟩
  · exact (report_missing_time_errors [reportNoTime]).1 ⟨reportNoTime, by simp, rfl⟩
  · exact (report_missing_time_errors [reportWithCoords]).2.1 (by decide)
  · exact (report_missing_time_errors [reportNoTime]).2.2
      ⟨[adminUser], [], [reportNoTime], []⟩ adminUser rfl ⟨reportNoTime, by simp, rfl⟩

end Strays
